import Mathlib

/-!
Shallow embedding of the pose-sequence matching and scoring engine of the
dance_match repository (src/modules/pose_module.py, src/modules/game_states.py,
src/modules/dance_module.py), together with theorems settling the frozen
claims about it.

Conventions of the embedding:
* Python floats are modelled as exact rationals; the DTW/cosine distance,
  which mathematically involves square roots, takes values in the reals.
* A Python function that can raise an uncaught exception is modelled with an
  Option/Except codomain, none/error standing for the escaping exception.
* Machine timestamps are unbounded integers (Python ints are arbitrary
  precision).
-/

/-- One body keypoint, as produced by the landmark model: normalized
coordinates plus two confidence fields (pose_module.py, landmark objects). -/
structure Landmark where
  x : ℚ
  y : ℚ
  z : ℚ
  visibility : ℚ
  presence : ℚ
  deriving DecidableEq, Repr

/-- `Pose` (pose_module.py lines 33-47): a list of landmark-sets (one per
detected body) and a timestamp in milliseconds. -/
structure Pose where
  landmarks : List (List Landmark)
  timestamp_ms : ℤ
  deriving DecidableEq, Repr

/-- `Pose_Sequence` (pose_module.py lines 90-105): the nominal interval
between poses and the list of poses in insertion order (`add_pose` appends). -/
structure Pose_Sequence where
  time_between_poses_ms : ℤ
  poses : List Pose
  deriving DecidableEq, Repr

/-- Python's builtin `min(iterable, key=k)`: a linear scan keeping the current
minimum and replacing it only when a strictly smaller key appears, so the
first element attaining the minimal key is returned; on an empty iterable it
raises ValueError, modelled as `none`. -/
def pymin_by {α : Type} (key : α → ℤ) : List α → Option α
  | [] => none
  | x :: xs => some (xs.foldl (fun acc y => if key y < key acc then y else acc) x)

/-- `Pose_Sequence.get_closest_pose_at` (pose_module.py lines 121-132):
`min(self.poses, key=lambda pose: abs(pose.timestamp_ms - timestamp_ms))`.
The ValueError raised by `min` on an empty sequence (the spec's
EmptySequence error) is the `none` result. -/
def Pose_Sequence.get_closest_pose_at (s : Pose_Sequence) (timestamp_ms : ℤ) :
    Option Pose :=
  pymin_by (fun pose => |pose.timestamp_ms - timestamp_ms|) s.poses

section PyMinSpec

variable {α : Type} (key : α → ℤ)

/-- The foldl underlying `pymin_by` returns an element of the list that is
minimal for `key`, and everything strictly before its first occurrence has a
strictly larger key (Python `min` keeps the earliest minimum). -/
theorem foldl_pymin_spec :
    ∀ (xs : List α) (x : α),
      ∃ m l1 l2,
        xs.foldl (fun acc y => if key y < key acc then y else acc) x = m ∧
        x :: xs = l1 ++ m :: l2 ∧
        (∀ q ∈ x :: xs, key m ≤ key q) ∧
        (∀ q ∈ l1, key m < key q) := by
  intro xs
  induction xs with
  | nil =>
      intro x
      refine ⟨x, [], [], rfl, rfl, ?_, ?_⟩
      · intro q hq
        simp only [List.mem_singleton] at hq
        exact le_of_eq (congrArg key hq.symm)
      · intro q hq
        simp at hq
  | cons y ys ih =>
      intro x
      simp only [List.foldl_cons]
      by_cases hxy : key y < key x
      · -- the accumulator is replaced by y
        obtain ⟨m, l1, l2, hfold, heq, hmin, hfirst⟩ := ih y
        simp only [if_pos hxy]
        refine ⟨m, x :: l1, l2, hfold, by rw [List.cons_append, ← heq], ?_, ?_⟩
        · intro q hq
          rcases List.mem_cons.1 hq with hq | hq
          · subst hq
            have hy : key m ≤ key y := hmin y (List.mem_cons_self y ys)
            exact le_of_lt (lt_of_le_of_lt hy hxy)
          · exact hmin q (heq ▸ hq)
        · intro q hq
          rcases List.mem_cons.1 hq with hq | hq
          · subst hq
            have hy : key m ≤ key y := hmin y (List.mem_cons_self y ys)
            exact lt_of_le_of_lt hy hxy
          · exact hfirst q hq
      · -- the accumulator x is kept
        obtain ⟨m, l1, l2, hfold, heq, hmin, hfirst⟩ := ih x
        simp only [if_neg hxy]
        have hxley : key x ≤ key y := le_of_not_lt hxy
        cases l1 with
        | nil =>
            -- the minimum is x itself
            simp only [List.nil_append, List.cons.injEq] at heq
            obtain ⟨hmx, hl2⟩ := heq
            refine ⟨m, [], y :: l2, hfold, ?_, ?_, ?_⟩
            · rw [List.nil_append, ← hmx, ← hl2]
            · intro q hq
              rcases List.mem_cons.1 hq with hq | hq
              · subst hq; exact le_of_eq (congrArg key hmx.symm)
              · rcases List.mem_cons.1 hq with hq | hq
                · subst hq
                  exact le_trans (le_of_eq (congrArg key hmx.symm)) hxley
                · exact hmin q (List.mem_cons_of_mem x hq)
            · intro q hq; simp at hq
        | cons a l1' =>
            -- the minimum sits inside ys, strictly below x
            simp only [List.cons_append, List.cons.injEq] at heq
            obtain ⟨hax, htail⟩ := heq
            subst hax
            have hmltx : key m < key x := hfirst x (List.mem_cons_self x l1')
            have hys : ∀ q ∈ l1', q ∈ ys := by
              intro q hq
              rw [htail]
              exact List.mem_append.2 (Or.inl hq)
            refine ⟨m, x :: y :: l1', l2, hfold, ?_, ?_, ?_⟩
            · simp [htail]
            · intro q hq
              rcases List.mem_cons.1 hq with hq | hq
              · subst hq; exact le_of_lt hmltx
              · rcases List.mem_cons.1 hq with hq | hq
                · subst hq; exact le_trans (le_of_lt hmltx) hxley
                · exact hmin q (List.mem_cons_of_mem x hq)
            · intro q hq
              rcases List.mem_cons.1 hq with hq | hq
              · subst hq; exact hmltx
              · rcases List.mem_cons.1 hq with hq | hq
                · subst hq; exact lt_of_lt_of_le hmltx hxley
                · exact hfirst q (List.mem_cons_of_mem x hq)

end PyMinSpec

/-- A concrete unsorted pose sequence with a distance tie (timestamps 10, 2, 4
queried at 3: poses at 2 and 4 are both at distance 1). -/
def tieSeq : Pose_Sequence :=
  ⟨100, [⟨[], 10⟩, ⟨[], 2⟩, ⟨[], 4⟩]⟩

/-- C1: on every non-empty pose sequence, `get_closest_pose_at t` returns a
pose of the sequence whose absolute timestamp difference to `t` is minimal,
and every pose inserted before it is strictly farther from `t` (so among tied
poses the earliest-inserted wins); no sortedness of the sequence is assumed. -/
theorem get_closest_pose_at_correct (s : Pose_Sequence) (t : ℤ)
    (h : s.poses ≠ []) :
    ∃ p l1 l2,
      s.get_closest_pose_at t = some p ∧
      s.poses = l1 ++ p :: l2 ∧
      (∀ q ∈ s.poses, |p.timestamp_ms - t| ≤ |q.timestamp_ms - t|) ∧
      (∀ q ∈ l1, |p.timestamp_ms - t| < |q.timestamp_ms - t|) := by
  obtain ⟨x, xs, hxs⟩ := List.exists_cons_of_ne_nil h
  obtain ⟨m, l1, l2, hfold, heq, hmin, hfirst⟩ :=
    foldl_pymin_spec (fun pose => |pose.timestamp_ms - t|) xs x
  refine ⟨m, l1, l2, ?_, ?_, ?_, hfirst⟩
  · unfold Pose_Sequence.get_closest_pose_at
    rw [hxs]
    exact congrArg some hfold
  · rw [hxs, heq]
  · intro q hq
    exact hmin q (by rw [← hxs]; exact hq)

/-- Witness for C1 at the concrete unsorted tied sequence `tieSeq`. -/
theorem get_closest_pose_at_correct_witness :
    tieSeq.poses ≠ [] ∧
      ∃ p l1 l2,
        tieSeq.get_closest_pose_at 3 = some p ∧
        tieSeq.poses = l1 ++ p :: l2 ∧
        (∀ q ∈ tieSeq.poses, |p.timestamp_ms - 3| ≤ |q.timestamp_ms - 3|) ∧
        (∀ q ∈ l1, |p.timestamp_ms - 3| < |q.timestamp_ms - 3|) :=
  ⟨by decide, get_closest_pose_at_correct tieSeq 3 (by decide)⟩

/-- C7: `get_closest_pose_at` on a sequence with zero poses fails for every
query timestamp: Python's `min` raises ValueError on an empty sequence (the
spec's EmptySequence error), modelled by the `none` result. -/
theorem get_closest_pose_at_empty (s : Pose_Sequence) (h : s.poses = [])
    (t : ℤ) : s.get_closest_pose_at t = none := by
  unfold Pose_Sequence.get_closest_pose_at
  rw [h]
  rfl

/-- Witness for C7 at a concrete empty sequence and query timestamp 42. -/
theorem get_closest_pose_at_empty_witness :
    (⟨250, []⟩ : Pose_Sequence).poses = [] ∧
      (⟨250, []⟩ : Pose_Sequence).get_closest_pose_at 42 = none :=
  ⟨rfl, get_closest_pose_at_empty ⟨250, []⟩ rfl 42⟩

/-- Python's builtin `round` to an integer: round-half-to-even on the value
(the source rounds via `round(value, 3)`, whose integer part behaves like
this on the scaled value). -/
def pythonRound (q : ℚ) : ℤ :=
  if q - ⌊q⌋ < 1 / 2 then ⌊q⌋
  else if 1 / 2 < q - ⌊q⌋ then ⌊q⌋ + 1
  else if ⌊q⌋ % 2 = 0 then ⌊q⌋ else ⌊q⌋ + 1

/-- `round(value, 3)` of the source (`Pose.to_dict`, pose_module.py lines
49-62): rounding to 3 decimal digits. -/
def round3 (q : ℚ) : ℚ := (pythonRound (q * 1000) : ℚ) / 1000

/-- One serialized landmark: the record `{"x": ..., "y": ..., "z": ...,
"visibility": ..., "presence": ...}` written by `Pose.to_dict`.  The
serializer always writes all five keys and `Pose.from_dict` reads all five,
so they are total fields here; optionality of keys is modelled at the pose
and sequence level, which is what the loader's error paths exercise. -/
structure LandmarkRecord where
  x : ℚ
  y : ℚ
  z : ℚ
  visibility : ℚ
  presence : ℚ
  deriving DecidableEq, Repr

/-- One serialized pose: the record with keys `timestamp_ms` and `landmarks`
(pose_module.py lines 49-62).  `Option` fields model possibly-missing JSON
keys; a `none` field makes `Pose.from_dict` fail (Python KeyError). -/
structure PoseRecord where
  timestamp_ms : Option ℤ
  landmarks : Option (List (List LandmarkRecord))
  deriving DecidableEq, Repr

/-- The serialized pose sequence: the top-level JSON record with keys
`time_between_poses_ms` and `poses` (pose_module.py lines 134-144). -/
structure SeqRecord where
  time_between_poses_ms : Option ℤ
  poses : Option (List PoseRecord)
  deriving DecidableEq, Repr

/-- The landmark part of `Pose.to_dict`: each of the five fields rounded to
3 decimal digits. -/
def Landmark.to_dict (lm : Landmark) : LandmarkRecord :=
  ⟨round3 lm.x, round3 lm.y, round3 lm.z,
   round3 lm.visibility, round3 lm.presence⟩

/-- `Pose.to_dict` (pose_module.py lines 49-62). -/
def Pose.to_dict (p : Pose) : PoseRecord :=
  ⟨some p.timestamp_ms,
   some (p.landmarks.map (fun pose => pose.map Landmark.to_dict))⟩

/-- Rebuilding a landmark from its record (the NormalizedLandmark
construction inside `Pose.from_dict`, pose_module.py lines 81-86). -/
def LandmarkRecord.to_landmark (r : LandmarkRecord) : Landmark :=
  ⟨r.x, r.y, r.z, r.visibility, r.presence⟩

/-- `Pose.from_dict` (pose_module.py lines 64-88): reads the `landmarks` and
`timestamp_ms` keys; a missing key raises KeyError, modelled as `none`. -/
def Pose.from_dict (r : PoseRecord) : Option Pose :=
  match r.timestamp_ms, r.landmarks with
  | some ts, some ls =>
      some ⟨ls.map (fun pose => pose.map LandmarkRecord.to_landmark), ts⟩
  | _, _ => none

/-- `Pose_Sequence.to_dict` (pose_module.py lines 134-144). -/
def Pose_Sequence.to_dict (s : Pose_Sequence) : SeqRecord :=
  ⟨some s.time_between_poses_ms, some (s.poses.map Pose.to_dict)⟩

/-- The load loop of `Pose_Sequence.load_from_json_file` (pose_module.py
lines 183-185): rebuild each pose in order via `Pose.from_dict`, aborting on
the first failure. -/
def loadPoses : List PoseRecord → Option (List Pose)
  | [] => some []
  | r :: rs =>
      match Pose.from_dict r, loadPoses rs with
      | some p, some ps => some (p :: ps)
      | _, _ => none

/-- The error that `Pose_Sequence.load_from_json_file` can raise to its
caller: only FileNotFoundError, raised before the `try` block. -/
inductive LoadError where
  | fileNotFound
  deriving DecidableEq, Repr

/-- `Pose_Sequence.load_from_json_file` (pose_module.py lines 159-190).
The argument models the filesystem at the given path: `none` is a
nonexistent path (the function raises FileNotFoundError before reading),
`some data` an existing file parsed into a record whose `Option` fields are
the possibly-missing JSON keys.  Everything inside the function's `try`
block - including the KeyError from a missing `time_between_poses_ms` or
`poses` key and any failing `Pose.from_dict` - is caught by the bare
`except`, which prints and returns None: that swallowed-error path is the
`Except.ok none` result, while a successful load is `Except.ok (some s)`. -/
def Pose_Sequence.load_from_json_file (file : Option SeqRecord) :
    Except LoadError (Option Pose_Sequence) :=
  match file with
  | none => Except.error LoadError.fileNotFound
  | some data =>
      Except.ok
        (match data.time_between_poses_ms, data.poses with
         | some t, some rs => (loadPoses rs).map (fun ps => ⟨t, ps⟩)
         | _, _ => none)

/-- Rounding to the nearest integer (with any tie-break) moves a value by at
most 1/2. -/
theorem abs_pythonRound_sub_le (q : ℚ) : |(pythonRound q : ℚ) - q| ≤ 1 / 2 := by
  have hfl : (⌊q⌋ : ℚ) ≤ q := Int.floor_le q
  have hfu : q < (⌊q⌋ : ℚ) + 1 := Int.lt_floor_add_one q
  unfold pythonRound
  split_ifs with h1 h2 h3 <;>
    · rw [abs_le]
      constructor <;> push_cast <;> linarith

/-- `round3` moves a value by at most 1/2000 = 0.0005. -/
theorem abs_round3_sub_le (q : ℚ) : |round3 q - q| ≤ 1 / 2000 := by
  have h := abs_pythonRound_sub_le (q * 1000)
  unfold round3
  have heq : (pythonRound (q * 1000) : ℚ) / 1000 - q =
      ((pythonRound (q * 1000) : ℚ) - q * 1000) / 1000 := by ring
  rw [heq, abs_div]
  have h1000 : |(1000 : ℚ)| = 1000 := by norm_num
  rw [h1000]
  rw [div_le_div_iff₀ (by norm_num) (by norm_num)]
  nlinarith [h]

/-- Closeness of a deserialized landmark to the original: every one of the
five fields moved by at most 0.0005 (3-decimal rounding tolerance). -/
def landmarkClose (a b : Landmark) : Prop :=
  |b.x - a.x| ≤ 1 / 2000 ∧ |b.y - a.y| ≤ 1 / 2000 ∧ |b.z - a.z| ≤ 1 / 2000 ∧
  |b.visibility - a.visibility| ≤ 1 / 2000 ∧ |b.presence - a.presence| ≤ 1 / 2000

/-- The pose produced by serializing and deserializing: same timestamp,
landmarks rounded. -/
def roundtripPose (p : Pose) : Pose :=
  ⟨(p.landmarks.map (fun pose => pose.map Landmark.to_dict)).map
      (fun pose => pose.map LandmarkRecord.to_landmark),
   p.timestamp_ms⟩

theorem from_dict_to_dict (p : Pose) :
    Pose.from_dict (Pose.to_dict p) = some (roundtripPose p) := rfl

theorem loadPoses_map_to_dict (l : List Pose) :
    loadPoses (l.map Pose.to_dict) = some (l.map roundtripPose) := by
  induction l with
  | nil => rfl
  | cons p ps ih =>
      simp only [List.map_cons, loadPoses, from_dict_to_dict, ih]

theorem landmarkClose_round (lm : Landmark) :
    landmarkClose lm (LandmarkRecord.to_landmark (Landmark.to_dict lm)) :=
  ⟨abs_round3_sub_le lm.x, abs_round3_sub_le lm.y, abs_round3_sub_le lm.z,
   abs_round3_sub_le lm.visibility, abs_round3_sub_le lm.presence⟩

/-- C4: serializing any pose sequence with `to_dict` and rebuilding it through
the loader (`Pose.from_dict` on each pose record) succeeds and reproduces
`time_between_poses_ms` and every timestamp exactly, and every landmark field
within 0.0005 of the original (3-decimal rounding tolerance). -/
theorem to_dict_roundtrip (S : Pose_Sequence) :
    ∃ S' : Pose_Sequence,
      Pose_Sequence.load_from_json_file (some S.to_dict) =
        Except.ok (some S') ∧
      S'.time_between_poses_ms = S.time_between_poses_ms ∧
      List.Forall₂ (fun p q : Pose =>
          q.timestamp_ms = p.timestamp_ms ∧
          List.Forall₂ (List.Forall₂ landmarkClose) p.landmarks q.landmarks)
        S.poses S'.poses := by
  refine ⟨⟨S.time_between_poses_ms, S.poses.map roundtripPose⟩, ?_, rfl, ?_⟩
  · unfold Pose_Sequence.load_from_json_file Pose_Sequence.to_dict
    simp only [loadPoses_map_to_dict]
    rfl
  · rw [List.forall₂_map_right_iff]
    rw [List.forall₂_same]
    intro p _
    refine ⟨rfl, ?_⟩
    unfold roundtripPose
    simp only [List.map_map]
    rw [List.forall₂_map_right_iff, List.forall₂_same]
    intro ls _
    simp only [Function.comp_apply, List.map_map]
    rw [List.forall₂_map_right_iff, List.forall₂_same]
    intro lm _
    exact landmarkClose_round lm

/-- Counterexample to C6 as stated: loading an existing file that lacks the
`time_between_poses_ms` key (here with a well-formed `poses` list present)
terminates with an ordinary `None` return value - `Except.ok none` - rather
than with an error propagating to the caller: the KeyError is swallowed by
the function's bare `except` clause. -/
theorem load_missing_key_returns_none :
    Pose_Sequence.load_from_json_file (some ⟨none, some []⟩) =
        Except.ok none ∧
      ∀ e : LoadError,
        Pose_Sequence.load_from_json_file (some ⟨none, some []⟩) ≠
          Except.error e := by
  refine ⟨rfl, ?_⟩
  intro e h
  simp [Pose_Sequence.load_from_json_file] at h

/-- C6 (amended): loading a nonexistent path raises FileNotFoundError before
any read or parse attempt; loading an existing record lacking the
`time_between_poses_ms` key or the `poses` key is caught internally and
returns `None` (no sequence at all), so the caller never receives a
partially-loaded sequence - but no error propagates to it either. -/
theorem load_from_json_file_error_handling :
    Pose_Sequence.load_from_json_file none =
        Except.error LoadError.fileNotFound ∧
      ∀ r : SeqRecord,
        r.time_between_poses_ms = none ∨ r.poses = none →
          Pose_Sequence.load_from_json_file (some r) = Except.ok none := by
  refine ⟨rfl, ?_⟩
  rintro ⟨tb, ps⟩ (h | h) <;> simp only at h <;> subst h
  · cases ps <;> rfl
  · cases tb <;> rfl

/-- Witness for C6 (amended) at concrete records missing one key each. -/
theorem load_from_json_file_error_handling_witness :
    Pose_Sequence.load_from_json_file none =
        Except.error LoadError.fileNotFound ∧
      Pose_Sequence.load_from_json_file (some ⟨none, some [⟨some 1, none⟩]⟩) =
        Except.ok none ∧
      Pose_Sequence.load_from_json_file (some ⟨some 100, none⟩) =
        Except.ok none :=
  ⟨load_from_json_file_error_handling.1,
   load_from_json_file_error_handling.2 ⟨none, some [⟨some 1, none⟩]⟩
     (Or.inl rfl),
   load_from_json_file_error_handling.2 ⟨some 100, none⟩ (Or.inr rfl)⟩

/-- A 3-D point `[x, y, z]` as extracted from a landmark by `compare_poses`
(pose_module.py lines 24-25), discarding visibility and presence. -/
abbrev Vec3 : Type := ℚ × ℚ × ℚ

/-- The dot product of two 3-D points. -/
def dot (u v : Vec3) : ℚ := u.1 * v.1 + u.2.1 * v.2.1 + u.2.2 * v.2.2

/-- `scipy.spatial.distance.cosine`:
`max(0, min(1 - u.v / sqrt((u.u) * (v.v)), 2.0))` - one minus the cosine
similarity, clamped into [0, 2] against rounding error.  When either vector
is zero the quotient is 0/0, NaN in the float code; the NaN propagates
through `min` (whose comparison fails, keeping NaN) and falls out of `max`
as its first argument 0, so scipy returns 0 on that degenerate input.  The
real-valued model has no NaN, so the degenerate denominator is an explicit
case returning the same 0. -/
noncomputable def cosineDist (u v : Vec3) : ℝ :=
  if dot u u * dot v v = 0 then 0
  else
    max 0
      (min (1 - (dot u v : ℝ) / Real.sqrt ((dot u u : ℝ) * (dot v v : ℝ))) 2)

/-- Dynamic time warping over two point sequences with local cost `d`:
the minimum, over monotone alignment paths pairing heads first, of the summed
local costs.  The source calls `fastdtw.fastdtw`, whose windowed
approximation agrees with exact DTW on the inputs appearing in the theorems
below (two identical sequences, where the zero-cost diagonal path lies inside
every search window `fastdtw` considers).  The two branches on an empty side
are junk values never reached through `compare_poses`. -/
noncomputable def dtw (d : Vec3 → Vec3 → ℝ) : List Vec3 → List Vec3 → ℝ
  | [], _ => 0
  | _ :: _, [] => 0
  | [x], [y] => d x y
  | [x], y :: y2 :: ys => d x y + dtw d [x] (y2 :: ys)
  | x :: x2 :: xs, [y] => d x y + dtw d (x2 :: xs) [y]
  | x :: x2 :: xs, y :: y2 :: ys =>
      d x y +
        min (dtw d (x2 :: xs) (y :: y2 :: ys))
          (min (dtw d (x :: x2 :: xs) (y2 :: ys)) (dtw d (x2 :: xs) (y2 :: ys)))
  termination_by as bs => as.length + bs.length
  decreasing_by all_goals (simp only [List.length_cons]; omega)

/-- The 3-D point of a landmark: `[lm.x, lm.y, lm.z]`. -/
def toVec (lm : Landmark) : Vec3 := (lm.x, lm.y, lm.z)

/-- `compare_poses` (pose_module.py lines 10-31).  The `try` block takes
`landmarks[0]` of each pose - an IndexError (zero landmark-sets) is caught
and yields None - and runs `fastdtw` with the cosine metric on the two point
lists.  When exactly one of the two point lists is empty, `fastdtw`'s path
reconstruction indexes into a defaultdict miss and raises an IndexError,
again caught to None; when both are empty it returns distance 0. -/
noncomputable def compare_poses (pose1 pose2 : Pose) : Option ℝ :=
  match pose1.landmarks, pose2.landmarks with
  | s1 :: _, s2 :: _ =>
      match s1, s2 with
      | [], [] => some 0
      | [], _ :: _ => none
      | _ :: _, [] => none
      | a :: as, b :: bs =>
          some (dtw cosineDist ((a :: as).map toVec) ((b :: bs).map toVec))
  | _, _ => none

theorem dot_self_nonneg (u : Vec3) : 0 ≤ dot u u := by
  obtain ⟨a, b, c⟩ := u
  simp only [dot]
  nlinarith [mul_self_nonneg a, mul_self_nonneg b, mul_self_nonneg c]

/-- scipy's clamp keeps the cosine distance at or above the metric's
minimum 0. -/
theorem cosineDist_nonneg (u v : Vec3) : 0 ≤ cosineDist u v := by
  unfold cosineDist
  split_ifs
  · exact le_refl 0
  · exact le_max_left 0 _

/-- Cosine distance of any vector to itself is exactly 0: for a nonzero
vector the similarity is 1, and for the zero vector the NaN-through-clamp
path returns 0. -/
theorem cosineDist_self (u : Vec3) : cosineDist u u = 0 := by
  unfold cosineDist
  by_cases h : dot u u * dot u u = 0
  · rw [if_pos h]
  · rw [if_neg h]
    have huu : dot u u ≠ 0 := by
      intro h0
      exact h (by rw [h0, mul_zero])
    have hpos : (0 : ℝ) < (dot u u : ℝ) := by
      exact_mod_cast lt_of_le_of_ne (dot_self_nonneg u) (Ne.symm huu)
    rw [Real.sqrt_mul_self hpos.le, div_self hpos.ne']
    norm_num

/-- DTW cumulative cost is nonnegative when the local cost is. -/
theorem dtw_nonneg (d : Vec3 → Vec3 → ℝ) (hd : ∀ a b, 0 ≤ d a b) :
    ∀ as bs, 0 ≤ dtw d as bs := by
  intro as bs
  induction as, bs using dtw.induct d with
  | case1 => simp [dtw]
  | case2 => simp [dtw]
  | case3 x y => simp only [dtw]; exact hd x y
  | case4 x y y2 ys ih => simp only [dtw]; exact add_nonneg (hd x y) ih
  | case5 x x2 xs y ih => simp only [dtw]; exact add_nonneg (hd x y) ih
  | case6 x x2 xs y y2 ys ih1 ih2 ih3 =>
      simp only [dtw]
      exact add_nonneg (hd x y) (le_min ih1 (le_min ih2 ih3))

/-- DTW of a sequence against itself is 0 whenever the local cost is
nonnegative and vanishes on the diagonal. -/
theorem dtw_self (d : Vec3 → Vec3 → ℝ) (hd : ∀ a b, 0 ≤ d a b) :
    ∀ s : List Vec3, (∀ x ∈ s, d x x = 0) → dtw d s s = 0 := by
  intro s
  induction s with
  | nil => intro _; simp [dtw]
  | cons x xs ih =>
      intro h0
      cases xs with
      | nil =>
          simp only [dtw]
          exact h0 x (List.mem_cons_self x [])
      | cons x2 xs2 =>
          have hC : dtw d (x2 :: xs2) (x2 :: xs2) = 0 :=
            ih fun a ha => h0 a (List.mem_cons_of_mem x ha)
          have hA : 0 ≤ dtw d (x2 :: xs2) (x :: x2 :: xs2) := dtw_nonneg d hd _ _
          have hB : 0 ≤ dtw d (x :: x2 :: xs2) (x2 :: xs2) := dtw_nonneg d hd _ _
          simp only [dtw]
          rw [hC, min_eq_right hB, min_eq_right hA,
            h0 x (List.mem_cons_self x (x2 :: xs2)), zero_add]

/-- C5: `compare_poses` yields the no-result value (None) rather than
raising, whenever either input pose has zero landmark-sets; it is a total
function of its two inputs (the `try`/`except` catches every internal
failure), so no exception ever reaches the caller. -/
theorem compare_poses_total_none (p1 p2 : Pose)
    (h : p1.landmarks = [] ∨ p2.landmarks = []) :
    compare_poses p1 p2 = none := by
  rcases h with h | h
  · cases hp : p2.landmarks <;> simp [compare_poses, h, hp]
  · cases hp : p1.landmarks <;> simp [compare_poses, h, hp]

/-- Witness for C5: a pose with zero landmark-sets compared against a pose
with one landmark-set yields None. -/
theorem compare_poses_total_none_witness :
    compare_poses ⟨[], 5⟩ ⟨[[⟨1, 2, 3, 1, 1⟩]], 7⟩ = none ∧
      compare_poses ⟨[[⟨1, 2, 3, 1, 1⟩]], 7⟩ ⟨[], 5⟩ = none :=
  ⟨compare_poses_total_none ⟨[], 5⟩ ⟨[[⟨1, 2, 3, 1, 1⟩]], 7⟩ (Or.inl rfl),
   compare_poses_total_none ⟨[[⟨1, 2, 3, 1, 1⟩]], 7⟩ ⟨[], 5⟩ (Or.inr rfl)⟩

/-- The pose whose single landmark-set holds the single all-zero landmark:
the degenerate input on which the cosine cost takes the NaN-through-clamp
path. -/
def zeroPose : Pose := ⟨[[⟨0, 0, 0, 0, 0⟩]], 0⟩

/-- C8: comparing a pose against an identical copy of itself yields exactly
the metric's minimum 0, for every pose with at least one landmark-set: every
diagonal cosine cost is 0 (including the zero landmark vector, where scipy's
clamp turns the degenerate 0/0 into 0), DTW of identical sequences follows
the zero-cost diagonal, and an empty first landmark-set compares to an
identical copy as distance 0 as well. -/
theorem compare_poses_self (p : Pose) (s : List Landmark)
    (rest : List (List Landmark)) (hs : p.landmarks = s :: rest) :
    compare_poses p p = some 0 := by
  cases s with
  | nil => simp [compare_poses, hs]
  | cons a as =>
      have h0 : ∀ v ∈ (a :: as).map toVec, cosineDist v v = 0 :=
        fun v _ => cosineDist_self v
      have hdtw := dtw_self cosineDist cosineDist_nonneg ((a :: as).map toVec) h0
      simp only [List.map_cons] at hdtw
      simp [compare_poses, hs, hdtw]

/-- Witness for C8 at a concrete one-landmark pose with a nonzero landmark
vector, and at the degenerate `zeroPose`. -/
theorem compare_poses_self_witness :
    compare_poses ⟨[[⟨1, 0, 0, 1, 1⟩]], 0⟩ ⟨[[⟨1, 0, 0, 1, 1⟩]], 0⟩ = some 0 ∧
      compare_poses zeroPose zeroPose = some 0 :=
  ⟨compare_poses_self ⟨[[⟨1, 0, 0, 1, 1⟩]], 0⟩ [⟨1, 0, 0, 1, 1⟩] [] rfl,
   compare_poses_self zeroPose [⟨0, 0, 0, 0, 0⟩] [] rfl⟩

/-- The mutable state of the `Play_Dance` game state (game_states.py lines
222-262): countdown fields, dance fields and the performance-tracking
fields.  Fields tied to rendering and external devices (surfaces, webcam,
video, pose model) are omitted; they do not feed the tracked quantities. -/
structure Play_Dance_State where
  countdown_active : Bool
  countdown_length_ms : ℤ
  countdown_start_time_ms : ℤ
  countdown_time_remaining : ℤ
  countdown_text : String
  dance_active : Bool
  dance_start_time_ms : ℤ
  current_distances : List ℚ
  batch_averages : List ℚ
  batch_size : ℕ
  dist : ℚ
  current_batch_average : ℚ
  deriving DecidableEq, Repr

/-- `Play_Dance.__init__` (game_states.py lines 222-262) at tick time
`now_ms`: 4000 ms countdown, batch size 20, initial displayed batch average
2, initial dist 10, empty buffers. -/
def Play_Dance.init (now_ms : ℤ) : Play_Dance_State where
  countdown_active := true
  countdown_length_ms := 4000
  countdown_start_time_ms := now_ms
  countdown_time_remaining := 4000
  countdown_text := ""
  dance_active := false
  dance_start_time_ms := 0
  current_distances := []
  batch_averages := []
  batch_size := 20
  dist := 10
  current_batch_average := 2

/-- `Play_Dance._track_performance` (game_states.py lines 264-273): once the
buffer holds at least `batch_size` distances, append their arithmetic mean
to the batch averages, clear the buffer and display the mean. -/
def Play_Dance.track_performance (st : Play_Dance_State) : Play_Dance_State :=
  if st.batch_size ≤ st.current_distances.length then
    { st with
        batch_averages := st.batch_averages ++
          [st.current_distances.sum / (st.current_distances.length : ℚ)],
        current_distances := [],
        current_batch_average :=
          st.current_distances.sum / (st.current_distances.length : ℚ) }
  else st

/-- One frame of `Play_Dance.update_dance` (game_states.py lines 373-376 and
388) in which the comparison produced the distance `d`: store it, append it
to the buffer, then run `_track_performance`. -/
def Play_Dance.record_distance (st : Play_Dance_State) (d : ℚ) :
    Play_Dance_State :=
  Play_Dance.track_performance
    { st with dist := d, current_distances := st.current_distances ++ [d] }

/-- `Play_Dance.get_final_score` (game_states.py lines 275-290). -/
def Play_Dance.get_final_score (st : Play_Dance_State) : ℤ :=
  if st.batch_averages = [] then 0
  else if st.batch_averages.sum / (st.batch_averages.length : ℚ) < 0.4 then 3
  else if st.batch_averages.sum / (st.batch_averages.length : ℚ) < 0.9 then 2
  else if st.batch_averages.sum / (st.batch_averages.length : ℚ) < 1.6 then 1
  else 0

/-- `Play_Dance.start_dance` (game_states.py lines 292-298), without the
video seek side effect. -/
def Play_Dance.start_dance (st : Play_Dance_State) (now_ms : ℤ) :
    Play_Dance_State :=
  { st with dance_active := true, dance_start_time_ms := now_ms }

/-- `Play_Dance.update_countdown` (game_states.py lines 390-403) at tick
time `now_ms` (`pygame.time.get_ticks()`).  The remaining time is the
countdown length minus the elapsed time; the dance starts only when it drops
strictly below 0, the text is "GO" when it is in [0, 1000), and the numeric
second count otherwise. -/
def Play_Dance.update_countdown (st : Play_Dance_State) (now_ms : ℤ) :
    Play_Dance_State :=
  if st.countdown_length_ms - (now_ms - st.countdown_start_time_ms) < 0 then
    Play_Dance.start_dance
      { st with
          countdown_time_remaining :=
            st.countdown_length_ms - (now_ms - st.countdown_start_time_ms),
          countdown_active := false } now_ms
  else if st.countdown_length_ms - (now_ms - st.countdown_start_time_ms) < 1000 then
    { st with
        countdown_time_remaining :=
          st.countdown_length_ms - (now_ms - st.countdown_start_time_ms),
        countdown_text := "GO" }
  else
    { st with
        countdown_time_remaining :=
          st.countdown_length_ms - (now_ms - st.countdown_start_time_ms),
        countdown_text :=
          toString ((st.countdown_length_ms -
            (now_ms - st.countdown_start_time_ms)) / 1000) }

/-- C2: the final score is 0 on an empty batch-average history, and
otherwise classifies the arithmetic mean m of the completed batch averages
as 3 when m < 0.4, 2 when 0.4 <= m < 0.9, 1 when 0.9 <= m < 1.6, and 0 when
m >= 1.6. -/
theorem get_final_score_spec (st : Play_Dance_State) :
    (st.batch_averages = [] → Play_Dance.get_final_score st = 0) ∧
      (st.batch_averages ≠ [] →
        (st.batch_averages.sum / (st.batch_averages.length : ℚ) < 0.4 →
            Play_Dance.get_final_score st = 3) ∧
          (0.4 ≤ st.batch_averages.sum / (st.batch_averages.length : ℚ) →
            st.batch_averages.sum / (st.batch_averages.length : ℚ) < 0.9 →
              Play_Dance.get_final_score st = 2) ∧
          (0.9 ≤ st.batch_averages.sum / (st.batch_averages.length : ℚ) →
            st.batch_averages.sum / (st.batch_averages.length : ℚ) < 1.6 →
              Play_Dance.get_final_score st = 1) ∧
          (1.6 ≤ st.batch_averages.sum / (st.batch_averages.length : ℚ) →
            Play_Dance.get_final_score st = 0)) := by
  unfold Play_Dance.get_final_score
  constructor
  · intro h
    rw [if_pos h]
  · intro h
    refine ⟨fun h1 => ?_, fun h1 h2 => ?_, fun h1 h2 => ?_, fun h1 => ?_⟩ <;>
      split_ifs with c1 c2 c3 c4 <;>
        first | rfl | (exact absurd c1 h) | linarith
/-- Witness for C2: histories [1/10, 2/10] (mean 3/20, score 3) and
[2] (score 0), and the empty history (score 0). -/
theorem get_final_score_spec_witness :
    Play_Dance.get_final_score
        { Play_Dance.init 0 with batch_averages := [1/10, 2/10] } = 3 ∧
      Play_Dance.get_final_score
        { Play_Dance.init 0 with batch_averages := [2] } = 0 ∧
      Play_Dance.get_final_score (Play_Dance.init 0) = 0 :=
  ⟨((get_final_score_spec _).2 (by decide)).1 (by norm_num),
   (((get_final_score_spec _).2 (by decide)).2.2.2) (by norm_num),
   (get_final_score_spec _).1 rfl⟩

/-- Feeding `k` frames of constant distance `d` into a fresh `Play_Dance`
session. -/
def Play_Dance.feed_constant (d : ℚ) : ℕ → Play_Dance_State
  | 0 => Play_Dance.init 0
  | k + 1 => Play_Dance.record_distance (Play_Dance.feed_constant d k) d

theorem feed_constant_lt (d : ℚ) :
    ∀ k, k < 20 →
      (Play_Dance.feed_constant d k).current_distances = List.replicate k d ∧
      (Play_Dance.feed_constant d k).batch_averages = [] ∧
      (Play_Dance.feed_constant d k).current_batch_average = 2 ∧
      (Play_Dance.feed_constant d k).batch_size = 20 := by
  intro k
  induction k with
  | zero => intro _; exact ⟨rfl, rfl, rfl, rfl⟩
  | succ n ih =>
      intro h
      obtain ⟨h1, h2, h3, h4⟩ := ih (by omega)
      have hlen : ¬((20 : ℕ) ≤ (List.replicate n d ++ [d]).length) := by
        simp only [List.length_append, List.length_replicate,
          List.length_cons, List.length_nil]
        omega
      have hn : ¬((19 : ℕ) ≤ n) := by omega
      refine ⟨?_, ?_, ?_, ?_⟩ <;>
        simp [Play_Dance.feed_constant, Play_Dance.record_distance,
          Play_Dance.track_performance, h1, h2, h3, h4, hlen, hn,
          List.replicate_succ' n d]

theorem record_distance_completes (st : Play_Dance_State) (d : ℚ)
    (hbuf : st.current_distances = List.replicate 19 d)
    (hbs : st.batch_size = 20) (hav : st.batch_averages = []) :
    (Play_Dance.record_distance st d).batch_averages = [d] ∧
      (Play_Dance.record_distance st d).current_distances = [] ∧
      (Play_Dance.record_distance st d).current_batch_average = d := by
  have havg : (List.replicate 19 d ++ [d]).sum /
      (((List.replicate 19 d ++ [d]).length : ℕ) : ℚ) = d := by
    rw [List.sum_append, List.sum_replicate, List.sum_cons, List.sum_nil,
      nsmul_eq_mul, List.length_append, List.length_replicate,
      List.length_cons, List.length_nil]
    push_cast
    ring
  refine ⟨?_, ?_, ?_⟩ <;>
    · simp only [Play_Dance.record_distance, Play_Dance.track_performance,
        hbuf, hbs, hav]
      rw [if_pos (by simp)]
      try simp
      try ring

/-- C3: with batch size fixed at 20, feeding exactly 20 frames of a constant
distance d into a fresh session appends exactly one completed batch average,
equal to d, clears the buffer, and updates the displayed current batch
average to d - while after every k < 20 frames no batch has completed, the
buffer holds the k fed distances, and the displayed average still has its
initial value 2. -/
theorem feed_constant_batch (d : ℚ) :
    (∀ k, k < 20 →
      (Play_Dance.feed_constant d k).batch_averages = [] ∧
      (Play_Dance.feed_constant d k).current_batch_average = 2 ∧
      (Play_Dance.feed_constant d k).current_distances = List.replicate k d) ∧
    (Play_Dance.feed_constant d 20).batch_averages = [d] ∧
    (Play_Dance.feed_constant d 20).current_distances = [] ∧
    (Play_Dance.feed_constant d 20).current_batch_average = d := by
  obtain ⟨h1, h2, h3, h4⟩ := feed_constant_lt d 19 (by omega)
  have hstep : Play_Dance.feed_constant d 20 =
      Play_Dance.record_distance (Play_Dance.feed_constant d 19) d := rfl
  obtain ⟨g1, g2, g3⟩ :=
    record_distance_completes (Play_Dance.feed_constant d 19) d h1 h4 h2
  refine ⟨?_, ?_, ?_, ?_⟩
  · intro k hk
    obtain ⟨f1, f2, f3, _⟩ := feed_constant_lt d k hk
    exact ⟨f2, f3, f1⟩
  · rw [hstep]; exact g1
  · rw [hstep]; exact g2
  · rw [hstep]; exact g3

/-- Witness for C3 at d = 3/2: after 7 frames nothing has completed and the
buffer holds seven copies of 3/2; after 20 frames the single completed batch
average is 3/2. -/
theorem feed_constant_batch_witness :
    ((Play_Dance.feed_constant (3/2) 7).batch_averages = [] ∧
      (Play_Dance.feed_constant (3/2) 7).current_batch_average = 2 ∧
      (Play_Dance.feed_constant (3/2) 7).current_distances =
        List.replicate 7 (3/2)) ∧
      (Play_Dance.feed_constant (3/2) 20).batch_averages = [3/2] :=
  ⟨(feed_constant_batch (3/2)).1 7 (by omega),
   (feed_constant_batch (3/2)).2.1⟩

/-- Counterexample to C9 as stated: at elapsed time exactly 4000 ms - the
full countdown duration - the state has not transitioned to the active
dance (the code requires the remaining time to be strictly negative, i.e.
elapsed > 4000); instead the countdown is still active and shows "GO". -/
theorem update_countdown_at_duration_counterexample :
    (Play_Dance.update_countdown (Play_Dance.init 0) 4000).countdown_active
        = true ∧
      (Play_Dance.update_countdown (Play_Dance.init 0) 4000).dance_active
        = false ∧
      (Play_Dance.update_countdown (Play_Dance.init 0) 4000).countdown_text
        = "GO" ∧
      (Play_Dance.init 0).countdown_length_ms = 4000 := by
  refine ⟨?_, ?_, ?_, rfl⟩ <;> decide

/-- C9 (amended): the countdown length is fixed at 4000 ms; the state
transitions from countdown to active dance exactly when the elapsed time
strictly exceeds 4000 ms (at elapsed = 4000 it has not yet transitioned),
and during the final 1000 ms of the countdown (3000 < elapsed <= 4000) the
displayed text is the terminal ready marker "GO" instead of a numeric
second count. -/
theorem update_countdown_spec (st : Play_Dance_State) (now_ms : ℤ)
    (hlen : st.countdown_length_ms = 4000) :
    (∀ t0 : ℤ, (Play_Dance.init t0).countdown_length_ms = 4000) ∧
      (4000 < now_ms - st.countdown_start_time_ms →
        (Play_Dance.update_countdown st now_ms).countdown_active = false ∧
        (Play_Dance.update_countdown st now_ms).dance_active = true ∧
        (Play_Dance.update_countdown st now_ms).dance_start_time_ms = now_ms) ∧
      (now_ms - st.countdown_start_time_ms ≤ 4000 →
        (Play_Dance.update_countdown st now_ms).countdown_active =
          st.countdown_active ∧
        (Play_Dance.update_countdown st now_ms).dance_active =
          st.dance_active) ∧
      (3000 < now_ms - st.countdown_start_time_ms →
        now_ms - st.countdown_start_time_ms ≤ 4000 →
        (Play_Dance.update_countdown st now_ms).countdown_text = "GO") := by
  refine ⟨fun _ => rfl, ?_, ?_, ?_⟩ <;>
    unfold Play_Dance.update_countdown Play_Dance.start_dance <;>
      rw [hlen]
  · intro h
    rw [if_pos (by omega)]
    exact ⟨rfl, rfl, rfl⟩
  · intro h
    rw [if_neg (by omega)]
    split_ifs <;> exact ⟨rfl, rfl⟩
  · intro h1 h2
    rw [if_neg (by omega), if_pos (by omega)]

/-- Witness for C9 (amended) on the fresh state started at tick 0: queried
at 4001 (transition), at 4000 (no transition) and at 3500 ("GO"). -/
theorem update_countdown_spec_witness :
    ((Play_Dance.update_countdown (Play_Dance.init 0) 4001).countdown_active
        = false ∧
      (Play_Dance.update_countdown (Play_Dance.init 0) 4001).dance_active
        = true ∧
      (Play_Dance.update_countdown (Play_Dance.init 0) 4001).dance_start_time_ms
        = 4001) ∧
      ((Play_Dance.update_countdown (Play_Dance.init 0) 4000).countdown_active
          = (Play_Dance.init 0).countdown_active ∧
        (Play_Dance.update_countdown (Play_Dance.init 0) 4000).dance_active
          = (Play_Dance.init 0).dance_active) ∧
      (Play_Dance.update_countdown (Play_Dance.init 0) 3500).countdown_text
        = "GO" :=
  ⟨(update_countdown_spec (Play_Dance.init 0) 4001 rfl).2.1 (by decide),
   (update_countdown_spec (Play_Dance.init 0) 4000 rfl).2.2.1 (by decide),
   (update_countdown_spec (Play_Dance.init 0) 3500 rfl).2.2.2 (by decide)
     (by decide)⟩

/-- `Dance` (dance_module.py lines 9-38): name, pose sequence and star
rating; the video and thumbnail resources are external and omitted.
`__init__` sets `stars` to 0. -/
structure Dance where
  name : String
  pose_sequence : Pose_Sequence
  stars : ℤ
  deriving DecidableEq, Repr

/-- The `Dance.__init__` of the source: star rating starts at 0. -/
def Dance.init (name : String) (ps : Pose_Sequence) : Dance :=
  ⟨name, ps, 0⟩

/-- `Dance.set_stars` (dance_module.py lines 30-38): updates the rating only
when the argument is one of 0, 1, 2, 3 (`number_of_starts in (0, 1, 2, 3)`);
any other value leaves the rating unchanged. -/
def Dance.set_stars (d : Dance) (number_of_starts : ℤ) : Dance :=
  if number_of_starts = 0 ∨ number_of_starts = 1 ∨
      number_of_starts = 2 ∨ number_of_starts = 3 then
    { d with stars := number_of_starts }
  else d

/-- The stars invariant: the rating is one of 0, 1, 2, 3. -/
def starsInv (d : Dance) : Prop :=
  d.stars = 0 ∨ d.stars = 1 ∨ d.stars = 2 ∨ d.stars = 3

theorem set_stars_preserves (d : Dance) (n : ℤ) (h : starsInv d) :
    starsInv (Dance.set_stars d n) := by
  unfold Dance.set_stars starsInv
  split_ifs with hc
  · exact hc
  · exact h

/-- C10: a dance's star rating always lies in {0, 1, 2, 3}: it starts at 0,
`set_stars n` leaves it unchanged for every n outside {0, 1, 2, 3}, and any
sequence of `set_stars` calls applied to a fresh dance keeps the rating in
{0, 1, 2, 3}. -/
theorem dance_stars_invariant (name : String) (ps : Pose_Sequence)
    (ops : List ℤ) (d : Dance) (n : ℤ)
    (hn : ¬(n = 0 ∨ n = 1 ∨ n = 2 ∨ n = 3)) :
    (Dance.init name ps).stars = 0 ∧
      Dance.set_stars d n = d ∧
      starsInv (ops.foldl Dance.set_stars (Dance.init name ps)) := by
  refine ⟨rfl, ?_, ?_⟩
  · unfold Dance.set_stars
    rw [if_neg hn]
  · have main : ∀ (l : List ℤ) (d0 : Dance), starsInv d0 →
        starsInv (l.foldl Dance.set_stars d0) := by
      intro l
      induction l with
      | nil => intro d0 h0; exact h0
      | cons m ms ih =>
          intro d0 h0
          exact ih (Dance.set_stars d0 m) (set_stars_preserves d0 m h0)
    exact main ops (Dance.init name ps) (Or.inl rfl)

/-- Witness for C10: a fresh dance, a rejected update with 7, and the
operation sequence [3, 99, 1]. -/
theorem dance_stars_invariant_witness :
    (Dance.init "waka" ⟨50, []⟩).stars = 0 ∧
      Dance.set_stars ⟨"waka", ⟨50, []⟩, 2⟩ 7 = ⟨"waka", ⟨50, []⟩, 2⟩ ∧
      starsInv ([3, 99, 1].foldl Dance.set_stars (Dance.init "waka" ⟨50, []⟩)) :=
  dance_stars_invariant "waka" ⟨50, []⟩ [3, 99, 1] ⟨"waka", ⟨50, []⟩, 2⟩ 7
    (by decide)
